import Mathlib

/-
Verification of the campus cafeteria ordering core: a shallow embedding of
the cart ledger, checkout transaction and order-status operations found in
the pages layer (Cart.tsx, Orders.tsx, Menu.tsx), with the persistent store
modelled as explicit lists of rows and each fallible database write driven
by an explicit fault flag.
-/

/-- Fulfillment status of an order (the status column of the orders table). -/
inductive OrderStatus
  | pending
  | preparing
  | ready
  | completed
  | cancelled
deriving DecidableEq, Repr

/-- Payment method selected at checkout. -/
inductive PaymentMethod
  | upi
  | card
  | razorpay
deriving DecidableEq, Repr

/-- A row of the menu_items table, restricted to the fields the ordering flow reads. -/
structure MenuItem where
  id : Nat
  price : ℚ
  isAvailable : Bool
deriving DecidableEq, Repr

/-- A row of the cart_items table. -/
structure CartEntry where
  id : Nat
  studentId : Nat
  menuItemId : Nat
  quantity : Nat
deriving DecidableEq, Repr

/-- A loaded cart line as the Cart page sees it: the cart row joined with its menu item. -/
structure CartItem where
  id : Nat
  quantity : Nat
  menuItemId : Nat
  price : ℚ
deriving DecidableEq, Repr

/-- The record returned by calculateTotal. -/
structure Totals where
  subtotal : ℚ
  tax : ℚ
  total : ℚ
deriving DecidableEq, Repr

/-- A row of the orders table. -/
structure OrderRow where
  id : Nat
  orderNumber : String
  studentId : Nat
  status : OrderStatus
  subtotal : ℚ
  tax : ℚ
  total : ℚ
  paymentMethod : PaymentMethod
  paymentStatus : String
  completedAt : Option Nat
deriving DecidableEq, Repr

/-- A row of the order_items table. -/
structure OrderItemRow where
  orderId : Nat
  menuItemId : Nat
  quantity : Nat
  priceAtOrder : ℚ
  subtotal : ℚ
deriving DecidableEq, Repr

/-- The persistent store the pages mutate through the database client. -/
structure Store where
  menu : List MenuItem
  cart : List CartEntry
  orders : List OrderRow
  orderItems : List OrderItemRow
deriving DecidableEq, Repr

/-- Which of the three database writes inside handleCheckout fail. -/
structure DbFaults where
  orderInsertFails : Bool
  itemsInsertFails : Bool
  clearFails : Bool
deriving DecidableEq, Repr

/-- The fault assignment in which every database write succeeds. -/
def noFaults : DbFaults := ⟨false, false, false⟩

/-- Observable outcome of a handleCheckout call: which toast fires and whether it returns early. -/
inductive CheckoutOutcome
  | emptyCart
  | orderCreateFailed
  | itemsCreateFailed
  | success
deriving DecidableEq, Repr

/-- Observable outcome of a single database mutation issued by a page handler. -/
inductive MutationResult
  | noop
  | dbError
  | ok
deriving DecidableEq, Repr

/-- The cart query of Cart.tsx: the caller's cart rows joined with their menu items
(price read live at load time). -/
def loadCart (st : Store) (sid : Nat) : List CartItem :=
  (st.cart.filter fun e => e.studentId == sid).filterMap fun e =>
    (st.menu.find? fun mi => mi.id == e.menuItemId).map fun mi =>
      { id := e.id, quantity := e.quantity, menuItemId := mi.id, price := mi.price }

/-- The calculateTotal function of Cart.tsx: subtotal is a left fold of price times
quantity over the loaded cart lines, tax is five percent of the subtotal, total is
their sum. -/
def calculateTotal (cartItems : List CartItem) : Totals :=
  let subtotal := cartItems.foldl (fun sum item => sum + item.price * (item.quantity : ℚ)) 0
  let tax := subtotal * 0.05
  { subtotal := subtotal, tax := tax, total := subtotal + tax }

/-- The order number built in handleCheckout: the literal ORD- followed by the last
six characters of the decimal print of the current millisecond timestamp. -/
def orderNumber (now : Nat) : String :=
  "ORD-" ++ (toString now).takeRight 6

/-- The order row inserted by handleCheckout: status pending, payment status the
literal completed, totals as computed, no completion timestamp. -/
def mkOrder (sid : Nat) (pm : PaymentMethod) (now oid : Nat) (t : Totals) : OrderRow :=
  { id := oid, orderNumber := orderNumber now, studentId := sid, status := .pending,
    subtotal := t.subtotal, tax := t.tax, total := t.total,
    paymentMethod := pm, paymentStatus := "completed", completedAt := none }

/-- The order_items rows built in handleCheckout: one per loaded cart line, with the
menu price snapshotted into priceAtOrder and the line subtotal precomputed. -/
def mkOrderItems (oid : Nat) (cartItems : List CartItem) : List OrderItemRow :=
  cartItems.map fun item =>
    { orderId := oid, menuItemId := item.menuItemId, quantity := item.quantity,
      priceAtOrder := item.price, subtotal := item.price * (item.quantity : ℚ) }

/-- The cart-clear delete issued at the end of handleCheckout: removes every cart row
of the given student. -/
def clearCart (cart : List CartEntry) (sid : Nat) : List CartEntry :=
  cart.filter fun e => !(e.studentId == sid)

/-- The handleCheckout function of Cart.tsx as a state transformer over the store.
It returns early with emptyCart when no cart lines were loaded; then inserts the
order row (aborting on failure with the generic order toast, leaving the store
unchanged); then inserts the item rows (aborting on failure with the generic items
toast, the already written order row left in place); then deletes the student's
cart rows, a failure of which is only logged and still ends in the success path. -/
def handleCheckout (st : Store) (sid : Nat) (pm : PaymentMethod) (now oid : Nat)
    (f : DbFaults) : CheckoutOutcome × Store :=
  let cartItems := loadCart st sid
  if cartItems.length = 0 then (.emptyCart, st)
  else
    let t := calculateTotal cartItems
    if f.orderInsertFails then (.orderCreateFailed, st)
    else
      let st1 := { st with orders := st.orders ++ [mkOrder sid pm now oid t] }
      if f.itemsInsertFails then (.itemsCreateFailed, st1)
      else
        let st2 := { st1 with orderItems := st1.orderItems ++ mkOrderItems oid cartItems }
        if f.clearFails then (.success, st2)
        else (.success, { st2 with cart := clearCart st2.cart sid })

/-- The updateOrderStatus function of Orders.tsx: a bare update of the status column
of the matching order row, with no precondition on the current status; the only
failure mode is the database call itself failing, which leaves the store unchanged. -/
def updateOrderStatus (orders : List OrderRow) (oid : Nat) (ns : OrderStatus)
    (dbFails : Bool) : MutationResult × List OrderRow :=
  if dbFails then (.dbError, orders)
  else (.ok, orders.map fun o => if o.id = oid then { o with status := ns } else o)

/-- The transition buttons the Orders page renders for an order in a given status:
nothing for completed or cancelled; otherwise the single one-stage-forward button
for the current status plus the cancel button. -/
def offeredTransitions (s : OrderStatus) : List OrderStatus :=
  if s = .completed ∨ s = .cancelled then []
  else
    (if s = .pending then [.preparing] else []) ++
    (if s = .preparing then [.ready] else []) ++
    (if s = .ready then [.completed] else []) ++
    [.cancelled]

/-- Legal-transition table as written in the spec: each forward step advances one
stage, cancelled is reachable from any non-terminal state, completed and cancelled
are terminal. -/
def specLegalTransition : OrderStatus → OrderStatus → Bool
  | .pending, .preparing => true
  | .pending, .cancelled => true
  | .preparing, .ready => true
  | .preparing, .cancelled => true
  | .ready, .completed => true
  | .ready, .cancelled => true
  | _, _ => false

/-- The updateQuantity function of Cart.tsx: returns silently when the requested
quantity is below one, otherwise writes the new quantity to the matching cart row. -/
def updateQuantity (cart : List CartEntry) (itemId : Nat) (newQuantity : Int)
    (dbFails : Bool) : MutationResult × List CartEntry :=
  if newQuantity < 1 then (.noop, cart)
  else if dbFails then (.dbError, cart)
  else (.ok, cart.map fun e =>
    if e.id = itemId then { e with quantity := newQuantity.toNat } else e)

/-- The removeItem function of Cart.tsx: deletes the matching cart row. -/
def removeItem (cart : List CartEntry) (itemId : Nat)
    (dbFails : Bool) : MutationResult × List CartEntry :=
  if dbFails then (.dbError, cart)
  else (.ok, cart.filter fun e => !(e.id == itemId))

/-- The duplicate lookup of handleAddToCart in Menu.tsx: the cart row of the given
student and menu item, if one exists. -/
def findPair (cart : List CartEntry) (s m : Nat) : Option CartEntry :=
  cart.find? fun e => e.studentId == s && e.menuItemId == m

/-- The handleAddToCart function of Menu.tsx: if a cart row for the pair exists its
quantity is incremented by one, otherwise a fresh row with quantity one is inserted. -/
def addToCart (cart : List CartEntry) (s m fid : Nat) : List CartEntry :=
  match findPair cart s m with
  | some existing =>
      cart.map fun e =>
        if e.id = existing.id then { e with quantity := e.quantity + 1 } else e
  | none => cart ++ [⟨fid, s, m, 1⟩]

/-- The cart obtained by n successive handleAddToCart calls for one pair, starting
from an empty cart, the k-th insert using k as the fresh row id. -/
def addN (s m : Nat) : Nat → List CartEntry
  | 0 => []
  | n + 1 => addToCart (addN s m n) s m n

/-- The quantity the cart records for a pair (zero when no row exists). -/
def quantityOf (cart : List CartEntry) (s m : Nat) : Nat :=
  match findPair cart s m with
  | some e => e.quantity
  | none => 0

/-- The price the catalog currently records for a menu item id. -/
def menuPriceAt (st : Store) (mid : Nat) : Option ℚ :=
  (st.menu.find? fun mi => mi.id == mid).map fun mi => mi.price

/-- Modelled from the spec: the admin-facing catalog mutation path. The spec states
the Catalog is mutated only through an admin-facing path not detailed in the source,
and no menu editor ships under the pages layer, so a price change is modelled as a
pure update of the menu collection, leaving cart, orders and order items untouched. -/
def updateMenuPrice (st : Store) (mid : Nat) (p : ℚ) : Store :=
  { st with menu := st.menu.map fun mi => if mi.id = mid then { mi with price := p } else mi }

/-- Example store used for concrete evaluations: two menu items and student 7
holding two cart rows. -/
def exStore : Store :=
  { menu := [⟨1, 10, true⟩, ⟨2, 15, true⟩],
    cart := [⟨11, 7, 1, 2⟩, ⟨12, 7, 2, 1⟩],
    orders := [], orderItems := [] }

/-- Example store with one menu item and cart rows for two different students. -/
def exStoreTwo : Store :=
  { menu := [⟨1, 10, true⟩],
    cart := [⟨11, 7, 1, 1⟩, ⟨12, 8, 1, 1⟩],
    orders := [], orderItems := [] }

/-- The checkout as executed against the deployed schema: the orders table declares
order_number text UNIQUE NOT NULL (the SQL shipped in Auth.tsx), so the order
insert fails exactly when the infrastructure fault flag is set or the generated
number equals the number of an order already stored — a unique violation surfaces
to handleCheckout as the same generic insert error as any other failure. -/
def handleCheckoutDb (st : Store) (sid : Nat) (pm : PaymentMethod) (now oid : Nat)
    (f : DbFaults) : CheckoutOutcome × Store :=
  handleCheckout st sid pm now oid
    { f with orderInsertFails :=
        f.orderInsertFails || st.orders.any fun o => o.orderNumber == orderNumber now }

/-- Example store already holding an order numbered ORD-000000 (as a checkout at
timestamp 1000000 creates) next to a populated cart for student 7. -/
def exStoreCollide : Store :=
  { menu := [⟨1, 10, true⟩],
    cart := [⟨12, 7, 1, 1⟩],
    orders := [⟨101, "ORD-000000", 8, .pending, 10, 1, 11, .upi, "completed", none⟩],
    orderItems := [] }

lemma map_completedAt_setStatus (orders : List OrderRow) (oid : Nat) (ns : OrderStatus) :
    ((orders.map fun o => if o.id = oid then { o with status := ns } else o).map
        fun o => o.completedAt) = orders.map fun o => o.completedAt := by
  induction orders with
  | nil => rfl
  | cons o os ih =>
      simp only [List.map_cons, ih, List.cons.injEq, and_true]
      by_cases h : o.id = oid <;> simp [h]

/-- C2 (amended): updateOrderStatus itself performs no validation — for every order
list, order id and requested status the database write is issued unconditionally and
succeeds (no InvalidTransition error exists in the code); transition legality holds
only because the Orders page renders exactly the legal edges as buttons: a target is
offered from a status precisely when the (from, to) pair is in the spec's table. -/
theorem updateOrderStatus_no_validation_ui_offers_legal_edges :
    (∀ (orders : List OrderRow) (oid : Nat) (ns : OrderStatus),
        (updateOrderStatus orders oid ns false).1 = .ok) ∧
    (∀ f t : OrderStatus, t ∈ offeredTransitions f ↔ specLegalTransition f t = true) := by
  constructor
  · intro orders oid ns; rfl
  · intro f t; cases f <;> cases t <;> decide

/-- C2 (counterexample): on an order already completed — a terminal state with no
legal outgoing edge — updateOrderStatus with requested status pending succeeds and
overwrites the status, instead of failing with InvalidTransition and leaving the
status unchanged. -/
theorem updateOrderStatus_illegal_edge_succeeds_cex :
    (updateOrderStatus [⟨1, "ORD-000001", 7, .completed, 10, 1, 11, .upi, "completed", none⟩]
        1 .pending false).1 = .ok ∧
    ((updateOrderStatus [⟨1, "ORD-000001", 7, .completed, 10, 1, 11, .upi, "completed", none⟩]
        1 .pending false).2.map fun o => o.status) = [.pending] := by
  constructor <;> rfl

/-- C6 (amended): a successful updateOrderStatus call writes only the status column —
the write succeeds, every matching row gets the requested status, and every row's
completedAt is exactly what it was before; in particular a transition into completed
does not stamp completedAt. -/
theorem updateOrderStatus_writes_status_only (orders : List OrderRow) (oid : Nat)
    (ns : OrderStatus) :
    (updateOrderStatus orders oid ns false).1 = .ok ∧
    (updateOrderStatus orders oid ns false).2
      = orders.map (fun o => if o.id = oid then { o with status := ns } else o) ∧
    ((updateOrderStatus orders oid ns false).2.map fun o => o.completedAt)
      = orders.map fun o => o.completedAt := by
  refine ⟨rfl, rfl, ?_⟩
  simpa [updateOrderStatus] using map_completedAt_setStatus orders oid ns

/-- C6 (counterexample): updating a ready order to completed succeeds and sets the
status, yet its completedAt stays none — the claim that completedAt is non-null
after the terminal transition fails on this input. -/
theorem completed_transition_no_completedAt_cex :
    ((updateOrderStatus [⟨2, "ORD-000002", 7, .ready, 10, 1, 11, .upi, "completed", none⟩]
        2 .completed false).2.map fun o => o.status) = [.completed] ∧
    ((updateOrderStatus [⟨2, "ORD-000002", 7, .ready, 10, 1, 11, .upi, "completed", none⟩]
        2 .completed false).2.map fun o => o.completedAt) = [none] := by
  constructor <;> rfl

/-- C8 (amended): a quantity update below one is silently ignored — updateQuantity
returns without issuing a database write and without surfacing any error, leaving
the cart unchanged; and no cart operation ever sets a quantity below one: both
updateQuantity and addToCart preserve the everywhere-positive quantity invariant,
so only removal deletes a line. -/
theorem updateQuantity_below_one_silent_noop :
    (∀ (cart : List CartEntry) (itemId : Nat) (q : Int) (b : Bool),
        q < 1 → updateQuantity cart itemId q b = (.noop, cart)) ∧
    (∀ (cart : List CartEntry) (itemId : Nat) (q : Int) (b : Bool),
        (∀ e ∈ cart, 1 ≤ e.quantity) →
        ∀ e ∈ (updateQuantity cart itemId q b).2, 1 ≤ e.quantity) ∧
    (∀ (cart : List CartEntry) (s m fid : Nat),
        (∀ e ∈ cart, 1 ≤ e.quantity) →
        ∀ e ∈ addToCart cart s m fid, 1 ≤ e.quantity) := by
  refine ⟨?_, ?_, ?_⟩
  · intro cart itemId q b hq
    simp [updateQuantity, hq]
  · intro cart itemId q b hinv e he
    by_cases hq : q < 1
    · simp [updateQuantity, hq] at he
      exact hinv e he
    · cases b with
      | true =>
          simp [updateQuantity, hq] at he
          exact hinv e he
      | false =>
          simp [updateQuantity, hq] at he
          obtain ⟨x, hx, rfl⟩ := he
          by_cases hid : x.id = itemId <;> simp [hid]
          · omega
          · exact hinv x hx
  · intro cart s m fid hinv e he
    unfold addToCart at he
    cases hfp : findPair cart s m with
    | some ex =>
        rw [hfp] at he
        simp only [List.mem_map] at he
        obtain ⟨x, hx, rfl⟩ := he
        by_cases hid : x.id = ex.id
        · simp only [hid, if_pos rfl]
          have := hinv x hx
          show 1 ≤ x.quantity + 1
          omega
        · simp only [if_neg hid]
          exact hinv x hx
    | none =>
        rw [hfp] at he
        rcases List.mem_append.mp he with h1 | h2
        · exact hinv e h1
        · simp at h2
          subst h2
          exact Nat.le_refl 1

/-- C8 (witness): concrete applications of the no-op and invariant parts. -/
theorem updateQuantity_below_one_silent_noop_witness :
    updateQuantity [⟨1, 7, 3, 2⟩] 1 0 true = (.noop, [⟨1, 7, 3, 2⟩]) :=
  updateQuantity_below_one_silent_noop.1 [⟨1, 7, 3, 2⟩] 1 0 true (by decide)

/-- C8 (counterexample): on a concrete cart row with quantity one, the request to
set quantity zero returns the silent no-op outcome — not any error — so the claim
that the call fails with InvalidArgument is false on this input (the cart is
indeed unchanged). -/
theorem updateQuantity_zero_no_error_cex :
    updateQuantity [⟨1, 7, 3, 1⟩] 1 0 false = (.noop, [⟨1, 7, 3, 1⟩]) ∧
    (updateQuantity [⟨1, 7, 3, 1⟩] 1 0 false).1 ≠ .dbError := by
  constructor
  · rfl
  · decide

lemma find?_map_of_pred_eq {α : Type} (l : List α) (p : α → Bool) (f : α → α)
    (hf : ∀ a, p (f a) = p a) : (l.map f).find? p = (l.find? p).map f := by
  induction l with
  | nil => rfl
  | cons x xs ih =>
      cases hpx : p x <;> simp [List.find?, hpx, hf, ih]

lemma addN_succ_eq (s m : Nat) : ∀ n : Nat, addN s m (n + 1) = [⟨0, s, m, n + 1⟩] := by
  intro n
  induction n with
  | zero => rfl
  | succ k ih =>
      show addToCart (addN s m (k + 1)) s m (k + 1) = _
      rw [ih]
      simp [addToCart, findPair, List.find?]

/-- C9: handleAddToCart increments the existing row for the (student, menu item)
pair by exactly one when one exists, creates a fresh row with quantity one when
none does, and therefore n successive calls for one pair starting from an empty
cart leave that pair with quantity exactly n. -/
theorem addToCart_increment_or_create (s m : Nat) :
    (∀ (cart : List CartEntry) (fid : Nat), findPair cart s m = none →
        addToCart cart s m fid = cart ++ [⟨fid, s, m, 1⟩]) ∧
    (∀ (cart : List CartEntry) (ex : CartEntry) (fid : Nat),
        findPair cart s m = some ex →
        findPair (addToCart cart s m fid) s m
          = some { ex with quantity := ex.quantity + 1 }) ∧
    (∀ n : Nat, quantityOf (addN s m n) s m = n) := by
  refine ⟨?_, ?_, ?_⟩
  · intro cart fid h
    simp [addToCart, h]
  · intro cart ex fid h
    have hpred : ∀ e : CartEntry,
        ((if e.id = ex.id then { e with quantity := e.quantity + 1 } else e).studentId == s
          && (if e.id = ex.id then { e with quantity := e.quantity + 1 } else e).menuItemId == m)
          = (e.studentId == s && e.menuItemId == m) := by
      intro e
      by_cases hid : e.id = ex.id <;> simp [hid]
    unfold addToCart
    rw [h]
    show List.find? _ (cart.map fun e =>
        if e.id = ex.id then { e with quantity := e.quantity + 1 } else e) = _
    rw [find?_map_of_pred_eq cart _ _ hpred]
    show (findPair cart s m).map _ = _
    rw [h]
    simp
  · intro n
    cases n with
    | zero => rfl
    | succ k =>
        rw [addN_succ_eq]
        simp [quantityOf, findPair, List.find?]

/-- C9 (witness): from the empty cart a first call creates the row with quantity
one, a second call bumps it to two, and three calls leave quantity three. -/
theorem addToCart_increment_or_create_witness :
    addToCart [] 5 7 0 = [] ++ [⟨0, 5, 7, 1⟩] ∧
    findPair (addToCart [⟨0, 5, 7, 1⟩] 5 7 1) 5 7 = some ⟨0, 5, 7, 2⟩ ∧
    quantityOf (addN 5 7 3) 5 7 = 3 :=
  ⟨(addToCart_increment_or_create 5 7).1 [] 0 (by decide),
   (addToCart_increment_or_create 5 7).2.1 [⟨0, 5, 7, 1⟩] ⟨0, 5, 7, 1⟩ 1 (by decide),
   (addToCart_increment_or_create 5 7).2.2 3⟩

lemma loadCart_ne_nil_length {st : Store} {sid : Nat} (h : loadCart st sid ≠ []) :
    ¬ (loadCart st sid).length = 0 := by
  simpa [List.length_eq_zero] using h

lemma handleCheckout_noFaults_eq (st : Store) (sid : Nat) (pm : PaymentMethod)
    (now oid : Nat) (h : loadCart st sid ≠ []) :
    handleCheckout st sid pm now oid noFaults =
      (.success,
        { menu := st.menu,
          cart := clearCart st.cart sid,
          orders := st.orders ++ [mkOrder sid pm now oid (calculateTotal (loadCart st sid))],
          orderItems := st.orderItems ++ mkOrderItems oid (loadCart st sid) }) := by
  simp [handleCheckout, noFaults, loadCart_ne_nil_length h]

lemma handleCheckout_clearFail_eq (st : Store) (sid : Nat) (pm : PaymentMethod)
    (now oid : Nat) (h : loadCart st sid ≠ []) :
    handleCheckout st sid pm now oid ⟨false, false, true⟩ =
      (.success,
        { menu := st.menu,
          cart := st.cart,
          orders := st.orders ++ [mkOrder sid pm now oid (calculateTotal (loadCart st sid))],
          orderItems := st.orderItems ++ mkOrderItems oid (loadCart st sid) }) := by
  simp [handleCheckout, loadCart_ne_nil_length h]

lemma handleCheckout_itemsFail_eq (st : Store) (sid : Nat) (pm : PaymentMethod)
    (now oid : Nat) (c : Bool) (h : loadCart st sid ≠ []) :
    handleCheckout st sid pm now oid ⟨false, true, c⟩ =
      (.itemsCreateFailed,
        { st with orders :=
            st.orders ++ [mkOrder sid pm now oid (calculateTotal (loadCart st sid))] }) := by
  simp [handleCheckout, loadCart_ne_nil_length h]

lemma handleCheckout_orderFail_eq (st : Store) (sid : Nat) (pm : PaymentMethod)
    (now oid : Nat) (i c : Bool) (h : loadCart st sid ≠ []) :
    handleCheckout st sid pm now oid ⟨true, i, c⟩ = (.orderCreateFailed, st) := by
  simp [handleCheckout, loadCart_ne_nil_length h]

lemma foldl_add_price (l : List CartItem) (a : ℚ) :
    l.foldl (fun sum item => sum + item.price * (item.quantity : ℚ)) a
      = a + (l.map fun i => i.price * (i.quantity : ℚ)).sum := by
  induction l generalizing a with
  | nil => simp
  | cons x xs ih => simp [ih, add_assoc]

/-- C3: a checkout by a student who holds no cart rows fails with the empty-cart
outcome and leaves the store — in particular the orders table — exactly as it was,
for every fault assignment. -/
theorem checkout_empty_cart_fails_no_order (st : Store) (sid : Nat) (pm : PaymentMethod)
    (now oid : Nat) (f : DbFaults) (h : ∀ e ∈ st.cart, e.studentId ≠ sid) :
    handleCheckout st sid pm now oid f = (.emptyCart, st) := by
  have hfilter : st.cart.filter (fun e => e.studentId == sid) = [] := by
    rw [List.filter_eq_nil_iff]
    intro a ha
    simp [h a ha]
  have hload : loadCart st sid = [] := by
    simp [loadCart, hfilter]
  simp [handleCheckout, hload]

/-- C3 (witness): a concrete store whose only cart row belongs to student 8 is left
untouched by a checkout for student 7, which reports the empty cart. -/
theorem checkout_empty_cart_fails_no_order_witness :
    handleCheckout ⟨[⟨1, 10, true⟩], [⟨1, 8, 1, 2⟩], [], []⟩ 7 .upi 123456 100 noFaults
      = (.emptyCart, ⟨[⟨1, 10, true⟩], [⟨1, 8, 1, 2⟩], [], []⟩) :=
  checkout_empty_cart_fails_no_order _ 7 .upi 123456 100 noFaults (by decide)

/-- C4: calculateTotal satisfies subtotal = sum of price times quantity, tax = five
percent of subtotal and total = subtotal + tax on every list of loaded cart lines;
and a fully successful checkout stores exactly those values on the created order,
whose total equals its subtotal plus its tax, whose subtotal equals the sum of the
line subtotals of the order items created with it, each line subtotal being the
snapshotted price times the quantity. -/
theorem checkout_totals_correct (st : Store) (sid : Nat) (pm : PaymentMethod)
    (now oid : Nat) (h : loadCart st sid ≠ []) :
    (∀ items : List CartItem,
        (calculateTotal items).subtotal
          = (items.map fun i => i.price * (i.quantity : ℚ)).sum ∧
        (calculateTotal items).tax = (calculateTotal items).subtotal * 0.05 ∧
        (calculateTotal items).total
          = (calculateTotal items).subtotal + (calculateTotal items).tax) ∧
    (handleCheckout st sid pm now oid noFaults).1 = .success ∧
    (handleCheckout st sid pm now oid noFaults).2.orders
      = st.orders ++ [mkOrder sid pm now oid (calculateTotal (loadCart st sid))] ∧
    (handleCheckout st sid pm now oid noFaults).2.orderItems
      = st.orderItems ++ mkOrderItems oid (loadCart st sid) ∧
    (mkOrder sid pm now oid (calculateTotal (loadCart st sid))).total
      = (mkOrder sid pm now oid (calculateTotal (loadCart st sid))).subtotal
        + (mkOrder sid pm now oid (calculateTotal (loadCart st sid))).tax ∧
    (mkOrder sid pm now oid (calculateTotal (loadCart st sid))).subtotal
      = ((mkOrderItems oid (loadCart st sid)).map fun it => it.subtotal).sum ∧
    (∀ it ∈ mkOrderItems oid (loadCart st sid),
        it.subtotal = it.priceAtOrder * (it.quantity : ℚ)) := by
  refine ⟨?_, ?_, ?_, ?_, ?_, ?_, ?_⟩
  · intro items
    refine ⟨?_, rfl, rfl⟩
    simp [calculateTotal, foldl_add_price]
  · rw [handleCheckout_noFaults_eq st sid pm now oid h]
  · rw [handleCheckout_noFaults_eq st sid pm now oid h]
  · rw [handleCheckout_noFaults_eq st sid pm now oid h]
  · rfl
  · show (calculateTotal (loadCart st sid)).subtotal = _
    rw [show ((mkOrderItems oid (loadCart st sid)).map fun it => it.subtotal)
          = (loadCart st sid).map fun i => i.price * (i.quantity : ℚ) by
        simp [mkOrderItems, List.map_map]]
    simp [calculateTotal, foldl_add_price]
  · intro it hit
    simp only [mkOrderItems, List.mem_map] at hit
    obtain ⟨item, hitem, rfl⟩ := hit
    rfl

/-- C4 (witness): the concrete success outcome and order-total identity on the
example store (two lines: two units at price ten plus one unit at price fifteen). -/
theorem checkout_totals_correct_witness :
    (handleCheckout exStore 7 .upi 123456 100 noFaults).1 = .success ∧
    (mkOrder 7 .upi 123456 100 (calculateTotal (loadCart exStore 7))).total
      = (mkOrder 7 .upi 123456 100 (calculateTotal (loadCart exStore 7))).subtotal
        + (mkOrder 7 .upi 123456 100 (calculateTotal (loadCart exStore 7))).tax :=
  ⟨(checkout_totals_correct exStore 7 .upi 123456 100 (by decide)).2.1,
   (checkout_totals_correct exStore 7 .upi 123456 100 (by decide)).2.2.2.2.1⟩

/-- C10: when only the final cart-clear write fails, checkout still ends in the
success path — no error outcome is returned, the created order and its items stand
in the store, and the stale cart rows simply remain. -/
theorem checkout_clear_failure_nonfatal (st : Store) (sid : Nat) (pm : PaymentMethod)
    (now oid : Nat) (h : loadCart st sid ≠ []) :
    handleCheckout st sid pm now oid ⟨false, false, true⟩ =
      (.success,
        { menu := st.menu,
          cart := st.cart,
          orders := st.orders ++ [mkOrder sid pm now oid (calculateTotal (loadCart st sid))],
          orderItems := st.orderItems ++ mkOrderItems oid (loadCart st sid) }) :=
  handleCheckout_clearFail_eq st sid pm now oid h

/-- C10 (witness): the clear-failure checkout on the example store succeeds with the
order written and the cart rows left in place. -/
theorem checkout_clear_failure_nonfatal_witness :
    handleCheckout exStore 7 .upi 123456 100 ⟨false, false, true⟩ =
      (.success,
        { menu := exStore.menu,
          cart := exStore.cart,
          orders := exStore.orders
            ++ [mkOrder 7 .upi 123456 100 (calculateTotal (loadCart exStore 7))],
          orderItems := exStore.orderItems ++ mkOrderItems 100 (loadCart exStore 7) }) :=
  checkout_clear_failure_nonfatal exStore 7 .upi 123456 100 (by decide)

/-- C7: every order item written by a successful checkout carries as priceAtOrder
exactly the price the catalog recorded for its menu item at checkout time, and a
later catalog price change leaves the stored order items — hence the line totals
the Orders page derives from priceAtOrder times quantity — untouched. -/
theorem checkout_price_snapshot (st : Store) (sid : Nat) (pm : PaymentMethod)
    (now oid : Nat) (h : loadCart st sid ≠ []) :
    (handleCheckout st sid pm now oid noFaults).1 = .success ∧
    (handleCheckout st sid pm now oid noFaults).2.orderItems
      = st.orderItems ++ mkOrderItems oid (loadCart st sid) ∧
    (∀ it ∈ mkOrderItems oid (loadCart st sid),
        menuPriceAt st it.menuItemId = some it.priceAtOrder) ∧
    (∀ (st2 : Store) (mid : Nat) (p : ℚ),
        (updateMenuPrice st2 mid p).orderItems = st2.orderItems) := by
  refine ⟨?_, ?_, ?_, ?_⟩
  · rw [handleCheckout_noFaults_eq st sid pm now oid h]
  · rw [handleCheckout_noFaults_eq st sid pm now oid h]
  · intro it hit
    simp only [mkOrderItems, List.mem_map] at hit
    obtain ⟨item, hitem, rfl⟩ := hit
    simp only [loadCart, List.mem_filterMap, List.mem_filter] at hitem
    obtain ⟨e, ⟨hmem, hsid⟩, hfind⟩ := hitem
    rw [Option.map_eq_some'] at hfind
    obtain ⟨mi, hmi, hmieq⟩ := hfind
    cases hmieq
    have hid : mi.id = e.menuItemId := by
      have := List.find?_some hmi
      simpa using this
    have hpred : (fun x : MenuItem => x.id == mi.id)
        = fun x : MenuItem => x.id == e.menuItemId := by
      funext x
      rw [hid]
    show menuPriceAt st mi.id = some mi.price
    rw [menuPriceAt, hpred, hmi]
    rfl
  · intro st2 mid p
    rfl

/-- C7 (witness): the success outcome of the snapshotting checkout on the example
store, with the item-insert hypothesis discharged concretely. -/
theorem checkout_price_snapshot_witness :
    (handleCheckout exStore 7 .upi 123456 100 noFaults).1 = .success :=
  (checkout_price_snapshot exStore 7 .upi 123456 100 (by decide)).1

/-- C1 (failing input): on the example store, when the order insert succeeds but the
order-items insert fails, handleCheckout returns the items-creation error yet the
order row with id 100 stays in the orders table while the order_items table is
empty — an items-less order remains observable, with no rollback, no failed marker
and no dedicated OrderCreationFailed error in the code. -/
theorem checkout_items_failure_partial_order :
    (handleCheckout exStore 7 .upi 123456 100 ⟨false, true, false⟩).1
      = .itemsCreateFailed ∧
    ((handleCheckout exStore 7 .upi 123456 100 ⟨false, true, false⟩).2.orders.map
        fun o => o.id) = [100] ∧
    (handleCheckout exStore 7 .upi 123456 100 ⟨false, true, false⟩).2.orderItems
      = [] ∧
    (handleCheckout exStore 7 .upi 123456 100 ⟨false, true, false⟩).2.cart
      = exStore.cart := by
  refine ⟨?_, ?_, ?_, ?_⟩ <;> rfl

lemma handleCheckout_success_not_orderFail (st : Store) (sid : Nat) (pm : PaymentMethod)
    (now oid : Nat) (f : DbFaults)
    (h : (handleCheckout st sid pm now oid f).1 = .success) :
    f.orderInsertFails = false := by
  by_cases hlen : (loadCart st sid).length = 0
  · simp [handleCheckout, hlen] at h
  · cases ho : f.orderInsertFails
    · rfl
    · simp [handleCheckout, hlen, ho] at h

lemma handleCheckout_success_orders (st : Store) (sid : Nat) (pm : PaymentMethod)
    (now oid : Nat) (f : DbFaults)
    (h : (handleCheckout st sid pm now oid f).1 = .success) :
    (handleCheckout st sid pm now oid f).2.orders
      = st.orders ++ [mkOrder sid pm now oid (calculateTotal (loadCart st sid))] := by
  by_cases hlen : (loadCart st sid).length = 0
  · simp [handleCheckout, hlen] at h
  · cases ho : f.orderInsertFails
    · cases hi : f.itemsInsertFails
      · cases hc : f.clearFails <;> simp [handleCheckout, hlen, ho, hi, hc]
      · simp [handleCheckout, hlen, ho, hi] at h
    · simp [handleCheckout, hlen, ho] at h

lemma handleCheckoutDb_success_fresh (st : Store) (sid : Nat) (pm : PaymentMethod)
    (now oid : Nat) (f : DbFaults)
    (h : (handleCheckoutDb st sid pm now oid f).1 = .success) :
    ∀ o ∈ st.orders, o.orderNumber ≠ orderNumber now := by
  have hflag : (f.orderInsertFails
      || st.orders.any fun o => o.orderNumber == orderNumber now) = false :=
    handleCheckout_success_not_orderFail st sid pm now oid
      { f with orderInsertFails :=
          f.orderInsertFails || st.orders.any fun o => o.orderNumber == orderNumber now } h
  have hany : (st.orders.any fun o => o.orderNumber == orderNumber now) = false :=
    (Bool.or_eq_false_iff.mp hflag).2
  intro o ho hEq
  have hmem : (st.orders.any fun o => o.orderNumber == orderNumber now) = true :=
    List.any_eq_true.mpr ⟨o, ho, by simp [hEq]⟩
  rw [hmem] at hany
  exact absurd hany (by decide)

/-- C5 (amended): the order number is time-derived — ORD- plus the last six digits
of the millisecond timestamp — with no client-side uniqueness check and no retry:
a checkout whose generated number collides with a stored order's number is
rejected by the schema's UNIQUE constraint and fails at once with the generic
order-creation failure and an unchanged store (no fresh-suffix retry, no Conflict
kind); that same constraint keeps the numbers of successful checkouts pairwise
distinct — a checkout only succeeds when its number differs from every stored
order's, so two successive successful checkouts never share a number. -/
theorem checkout_collision_no_retry_unique_numbers :
    (∀ (st : Store) (sid : Nat) (pm : PaymentMethod) (now oid : Nat) (f : DbFaults),
        loadCart st sid ≠ [] →
        (st.orders.any fun o => o.orderNumber == orderNumber now) = true →
        handleCheckoutDb st sid pm now oid f = (.orderCreateFailed, st)) ∧
    (∀ (st : Store) (sid : Nat) (pm : PaymentMethod) (now oid : Nat) (f : DbFaults),
        (handleCheckoutDb st sid pm now oid f).1 = .success →
        ∀ o ∈ st.orders, o.orderNumber ≠ orderNumber now) ∧
    (∀ (st : Store) (sid1 sid2 : Nat) (pm1 pm2 : PaymentMethod)
        (now1 now2 oid1 oid2 : Nat) (f1 f2 : DbFaults),
        (handleCheckoutDb st sid1 pm1 now1 oid1 f1).1 = .success →
        (handleCheckoutDb (handleCheckoutDb st sid1 pm1 now1 oid1 f1).2
            sid2 pm2 now2 oid2 f2).1 = .success →
        orderNumber now1 ≠ orderNumber now2) := by
  refine ⟨?_, handleCheckoutDb_success_fresh, ?_⟩
  · intro st sid pm now oid f h hany
    unfold handleCheckoutDb
    rw [hany, Bool.or_true]
    exact handleCheckout_orderFail_eq st sid pm now oid f.itemsInsertFails f.clearFails h
  · intro st sid1 sid2 pm1 pm2 now1 now2 oid1 oid2 f1 f2 h1 h2
    have hfresh := handleCheckoutDb_success_fresh
      (handleCheckoutDb st sid1 pm1 now1 oid1 f1).2 sid2 pm2 now2 oid2 f2 h2
    have horders : (handleCheckoutDb st sid1 pm1 now1 oid1 f1).2.orders
        = st.orders ++ [mkOrder sid1 pm1 now1 oid1 (calculateTotal (loadCart st sid1))] :=
      handleCheckout_success_orders st sid1 pm1 now1 oid1
        { f1 with orderInsertFails :=
            f1.orderInsertFails || st.orders.any fun o => o.orderNumber == orderNumber now1 } h1
    have hmem : mkOrder sid1 pm1 now1 oid1 (calculateTotal (loadCart st sid1))
        ∈ (handleCheckoutDb st sid1 pm1 now1 oid1 f1).2.orders := by
      rw [horders]
      simp
    exact hfresh _ hmem

/-- C5 (counterexample): the claimed fresh-suffix retry does not happen. After a
successful checkout at timestamp 1000000 created order ORD-000000, a second
checkout at timestamp 2000000 — whose generated number collides — fails
immediately with the generic order-creation error and leaves the store unchanged:
no retried insert with a fresh suffix, and no Conflict error kind exists in the
code. -/
theorem order_number_collision_aborts_cex :
    (handleCheckoutDb exStoreTwo 7 .upi 1000000 101 noFaults).1 = .success ∧
    handleCheckoutDb (handleCheckoutDb exStoreTwo 7 .upi 1000000 101 noFaults).2
        8 .upi 2000000 102 noFaults
      = (.orderCreateFailed, (handleCheckoutDb exStoreTwo 7 .upi 1000000 101 noFaults).2) := by
  constructor
  · rfl
  · rfl

/-- C5 (witness): a colliding checkout against a store already holding ORD-000000
fails at once with everything unchanged; and two successful checkouts in sequence,
at timestamps 1000000 and 123, have their order numbers forced apart. -/
theorem checkout_collision_no_retry_unique_numbers_witness :
    handleCheckoutDb exStoreCollide 7 .upi 2000000 102 noFaults
      = (.orderCreateFailed, exStoreCollide) ∧
    orderNumber 1000000 ≠ orderNumber 123 :=
  ⟨checkout_collision_no_retry_unique_numbers.1 exStoreCollide 7 .upi 2000000 102 noFaults
      (by decide) (by decide),
   checkout_collision_no_retry_unique_numbers.2.2 exStoreTwo 7 8 .upi .upi 1000000 123
      101 102 noFaults noFaults rfl rfl⟩
